import Mathlib

/-!
Shallow embedding of `memsql_loader/execution/downloader.py`:
the `DownloadMetrics` stall detector, the `Downloader._progress` callback,
the `Downloader._write_to_fifo` pipe relay, the S3 branch of
`Downloader.load`, and the exception-classification structure of
`Downloader.run`.

Modelling conventions:
* Wall-clock timestamps (seconds) and byte counts are integers (`ℤ`).  The
  float values the code sees are whole byte counts and second-granularity
  timestamps as far as every claim here is concerned.  pycurl hands `dlnow`
  to the progress callback as a float, so the divisions in `get_stats` are
  Python true division: they are modelled as exact division in `ℚ`.
* The `wraptor` `@throttle(1)` decorator is modelled as an explicit
  "time of last executed call" field compared against the clock, as the
  decorator does internally; the wrapped body is skipped entirely when the
  window has not elapsed.
* Exceptions are modelled as values: the bodies of `load` and `run` return
  sum types and the `except` chains become total classification functions.
-/

namespace Downloader

/-- `DOWNLOAD_TIMEOUT = 30` (downloader.py line 18). -/
def DOWNLOAD_TIMEOUT : ℤ := 30

/-- State of one `wraptor.throttle(1)` decorator instance: the time of the
last call that was let through (`none` before the first call, which always
fires). -/
def throttleReady (window : ℤ) (last : Option ℤ) (now : ℤ) : Bool :=
  match last with
  | none => true
  | some t => decide (window ≤ now - t)

/-- The `DownloadMetrics` object: its five data fields plus the state of the
two `@throttle(1, instance_method=True)` decorators on `ping` and
`snapshot`. -/
structure DownloadMetrics where
  total_size : ℤ
  current_size : ℤ
  last_snapshot : ℤ
  last_change : ℤ
  snapshots : List ℤ
  pingLast : Option ℤ
  snapshotLast : Option ℤ
  deriving Repr, DecidableEq

namespace DownloadMetrics

/-- `self._avg_len = 30` set in `DownloadMetrics.__init__`. -/
def avg_len : Nat := 30

/-- `DownloadMetrics.__init__(total_size)` at wall-clock time `t0`
(`self._last_change = time.time()`). -/
def init (total_size t0 : ℤ) : DownloadMetrics :=
  { total_size := total_size
    current_size := 0
    last_snapshot := 0
    last_change := t0
    snapshots := []
    pingLast := none
    snapshotLast := none }

/-- `DownloadMetrics.ping`, throttled to once per second:
`self._last_change = time.time()`. -/
def ping (now : ℤ) (s : DownloadMetrics) : DownloadMetrics :=
  if throttleReady 1 s.pingLast now then
    { s with last_change := now, pingLast := some now }
  else s

/-- Body of `DownloadMetrics.snapshot` (the code under the throttle):
compute `diff = current - last_snapshot`, ping when `diff > 10`, append
`diff` to `_snapshots`, trim to the last `_avg_len` entries, update
`_last_snapshot`. -/
def snapshotBody (now : ℤ) (s : DownloadMetrics) : DownloadMetrics :=
  let current := s.current_size
  let diff := current - s.last_snapshot
  let s1 := if 10 < diff then s.ping now else s
  let appended := s1.snapshots ++ [diff]
  let snaps :=
    if avg_len < appended.length then appended.drop (appended.length - avg_len)
    else appended
  { s1 with snapshots := snaps, last_snapshot := current }

/-- `DownloadMetrics.snapshot`, throttled to once per second. -/
def snapshot (now : ℤ) (s : DownloadMetrics) : DownloadMetrics :=
  if throttleReady 1 s.snapshotLast now then
    { snapshotBody now s with snapshotLast := some now }
  else s

/-- `DownloadMetrics.accumulate_bytes(current)`: store the new byte count,
then take a (throttled) snapshot. -/
def accumulate_bytes (now current : ℤ) (s : DownloadMetrics) : DownloadMetrics :=
  snapshot now { s with current_size := current }

/-- The dictionary returned by `DownloadMetrics.get_stats`. -/
structure Stats where
  bytes_downloaded : ℤ
  download_rate : ℚ
  time_left : ℚ
  deriving Repr, DecidableEq

/-- `DownloadMetrics.get_stats`. -/
def get_stats (s : DownloadMetrics) : Stats :=
  let rate : ℚ :=
    if s.current_size = s.total_size ∨ s.snapshots = [] then 0
    else (s.snapshots.sum : ℚ) / (s.snapshots.length : ℚ)
  let time_left : ℚ :=
    if rate = 0 then -1 else ((s.total_size - s.current_size : ℤ) : ℚ) / rate
  { bytes_downloaded := s.current_size
    download_rate := rate
    time_left := time_left }

/-- Division that refuses a zero denominator, used to state that
`get_stats` never divides by zero. -/
def checkedDiv (a b : ℚ) : Option ℚ :=
  if b = 0 then none else some (a / b)

/-- `get_stats` with every division routed through `checkedDiv`: it aborts
(`none`) if either division would have a zero denominator. -/
def get_statsChecked (s : DownloadMetrics) : Option Stats := do
  let rate ←
    if s.current_size = s.total_size ∨ s.snapshots = [] then some 0
    else checkedDiv (s.snapshots.sum : ℚ) (s.snapshots.length : ℚ)
  let time_left ←
    if rate = 0 then some (-1) else checkedDiv ((s.total_size - s.current_size : ℤ) : ℚ) rate
  some { bytes_downloaded := s.current_size
         download_rate := rate
         time_left := time_left }

/-- The arithmetic mean of a list of rationals, as the spec words it
(`rate = mean(delta window)`). -/
def arithMean (l : List ℤ) : ℚ := (l.sum : ℚ) / (l.length : ℚ)

end DownloadMetrics

/-- A trace of `accumulate_bytes` calls, each a `(wall-clock time, byte
count)` pair, applied in order. -/
def applyEvents (s : DownloadMetrics) : List (ℤ × ℤ) → DownloadMetrics
  | [] => s
  | (t, b) :: rest => applyEvents (DownloadMetrics.accumulate_bytes t b s) rest

/-- No call in the trace registers a meaningful delta: at every step the
would-be `diff = current - last_snapshot` is at most 10 bytes. -/
def noBigDelta : DownloadMetrics → List (ℤ × ℤ) → Prop
  | _, [] => True
  | s, (t, b) :: rest =>
      b - s.last_snapshot ≤ 10 ∧ noBigDelta (DownloadMetrics.accumulate_bytes t b s) rest

/-- `Downloader._progress(dltotal, dlnow, ultotal, ulnow)`: feed the
metrics, then return the abort signal (`1` becomes `true`) when
`self._should_exit` is set or `time.time() > last_change + DOWNLOAD_TIMEOUT`.
Returns the updated metrics and the abort flag. -/
def progress (should_exit : Bool) (now dlnow : ℤ) (s : DownloadMetrics) :
    DownloadMetrics × Bool :=
  let s' := DownloadMetrics.accumulate_bytes now dlnow s
  (s', should_exit || decide (s'.last_change + DOWNLOAD_TIMEOUT < now))

/-! ## Pipe relay: `Downloader._write_to_fifo`

The helper loops `while len(to_write) > 0`, waits (with pings) for the FIFO
to become writable, performs one `os.write`, and drops the accepted count
from the front of the buffer.  The environment — how many bytes each
`os.write` accepts — is an oracle list of counts; the model returns `none`
when the oracle runs out before the loop exits (the call has not returned
yet), and otherwise the list of partial writes actually issued. -/

/-- One iteration of the `_write_to_fifo_helper` loop after `select` says
the FIFO is writable: `os.write` accepts `written` bytes, so the bytes
delivered are `to_write.take written` and the loop continues with
`to_write = to_write[written_bytes:]`. -/
def fifoWriteStep (written : Nat) (to_write : List Nat) : List Nat × List Nat :=
  (to_write.take written, to_write.drop written)

/-- `_write_to_fifo_helper(data)` driven by the oracle of `os.write` return
values: `some parts` when the loop exits with `parts` the successive partial
writes, `none` when the oracle is exhausted first. -/
def writeToFifo : List Nat → List Nat → Option (List (List Nat))
  | _, [] => some []
  | [], _ :: _ => none
  | w :: ws, d :: ds =>
      let step := fifoWriteStep w (d :: ds)
      (writeToFifo ws step.2).map (step.1 :: ·)

/-! ## Resolution: the S3 branch of `Downloader.load`

`bucket.get_key(key_name)` (boto) returns `None` when the key is absent
(the backend answers 404 to the metadata request) and raises
`S3ResponseError(status, reason)` for any other non-200 answer; the model
takes the lookup answer as input.  After the scheme dispatch, `load` checks
`if self.key is None` and raises the task-id `WorkerException`. -/

/-- Outcome of `bucket.get_key(key_name)` as seen by `load`. -/
inductive S3LookupResult where
  | found (size : ℤ)
  | absent
  | httpError (status : Int) (reason : String)
  deriving Repr, DecidableEq

/-- The payloads of the `WorkerException`s `load` can raise, keeping the
data each format string interpolates. -/
inductive WorkerMsg where
  /-- `"Received %s %s accessing `%s`, aborting" % (e.status, e.reason, task.data['key_name'])` -/
  | receivedStatusAccessing (status : Int) (reason : String) (key_name : String)
  /-- `"Failed to find key associated with task ID %s" % task.task_id` -/
  | failedToFindKey (task_id : String)
  deriving Repr, DecidableEq

/-- Result of `Downloader.load` for an S3 task: either a resolved key
(name and size, from which `self.metrics = DownloadMetrics(self.key.size)`
is built) or a raised `WorkerException`. -/
inductive ResolveResult where
  | ok (name : String) (size : ℤ)
  | workerError (msg : WorkerMsg)
  deriving Repr, DecidableEq

/-- The `task.data['scheme'] == 's3'` branch of `Downloader.load` plus the
trailing `if self.key is None` check. -/
def s3Load (task_id key_name : String) (lookup : S3LookupResult) : ResolveResult :=
  match lookup with
  | .httpError status reason => .workerError (.receivedStatusAccessing status reason key_name)
  | .absent => .workerError (.failedToFindKey task_id)
  | .found size => .ok key_name size

/-- `true` exactly when a resolve outcome is an error message that carries a
backend status code, a backend reason and the key name. -/
def carriesBackendInfo : ResolveResult → Bool
  | .workerError (.receivedStatusAccessing _ _ _) => true
  | _ => false

/-- `true` exactly when resolution succeeded (so a transfer could start). -/
def resolveOk : ResolveResult → Bool
  | .ok _ _ => true
  | _ => false

/-! ## `Downloader.run`: exception routing and step bracketing

The body opens the fifo, builds the URL, runs `curl.perform()` between
`start_step('download')` and (in a `finally`) `stop_step('download')`, and
raises `WorkerException` on a 4xx final status.  The inner
`except pycurl.error` turns a callback abort with the cancellation flag
unset into `RequeueTask`; everything else re-raises.  The outer chain is
`except pycurl.error` / `except IOError` / `except Exception` /
`except KeyboardInterrupt`, the first three calling `_set_error` (which
also stores `sys.exc_info()[2]` as the traceback) and the last doing
nothing. -/

/-- `pycurl.E_ABORTED_BY_CALLBACK` (CURLE_ABORTED_BY_CALLBACK = 42). -/
def E_ABORTED_BY_CALLBACK : Int := 42

/-- How `curl.perform()` and the following status check end, as seen from
inside the inner `try`. -/
inductive PerformResult where
  /-- `perform` returned; `status` is `curl.getinfo(pycurl.HTTP_CODE)`. -/
  | ok (status : Int)
  /-- `perform` raised `pycurl.error` with `e.args[0] = errno`. -/
  | curlError (errno : Int)
  /-- An `IOError` with `e.args = (errno, msg)`. -/
  | ioError (errno : Int) (msg : String)
  /-- Any other `Exception` subclass. -/
  | otherError (desc : String)
  /-- A `KeyboardInterrupt` (not an `Exception` subclass in Python 2). -/
  | keyboardInterrupt
  deriving Repr, DecidableEq

/-- Exceptions in flight between the inner and the outer handlers. -/
inductive PyExc where
  | curlError (errno : Int)
  | ioError (errno : Int) (msg : String)
  /-- `WorkerException('HTTP status code %s for file %s' % (status, name))` -/
  | workerHttp (status : Int) (name : String)
  | requeueTask
  | otherError (desc : String)
  | keyboardInterrupt
  deriving Repr, DecidableEq

/-- The error values `_set_error` can store in `self._error`. -/
inductive CapturedError where
  /-- `ConnectionException('libcurl error #%d. ...' % errno)` -/
  | connection (errno : Int)
  /-- `ConnectionException('IOError: %s (%d)' % (e.args[1], e.args[0]))` -/
  | ioConn (errno : Int) (msg : String)
  /-- The `RequeueTask` instance, captured by `except Exception`. -/
  | requeue
  /-- The 4xx `WorkerException`, captured by `except Exception`. -/
  | workerHttp (status : Int) (name : String)
  /-- Any other `Exception` instance, captured by `except Exception`. -/
  | other (desc : String)
  deriving Repr, DecidableEq

/-- Task-step accounting events (`task.start_step` / `task.stop_step`). -/
inductive Event where
  | startStep
  | stopStep
  deriving Repr, DecidableEq

/-- What `run` leaves behind: the step events in order, `self._error`, and
whether `self._tb` holds the diagnostic traceback. -/
structure RunResult where
  events : List Event
  error : Option CapturedError
  tb : Bool
  deriving Repr, DecidableEq

/-- The inner `try` around `curl.perform()`: the 4xx check runs inside the
`try ... finally` that stops the step, so `stop_step` fires on every path
once `start_step` has fired. -/
def performBody (key_name : String) (res : PerformResult) : Except PyExc Unit :=
  match res with
  | .ok status =>
      if 400 ≤ status ∧ status < 500 then .error (.workerHttp status key_name)
      else .ok ()
  | .curlError errno => .error (.curlError errno)
  | .ioError errno msg => .error (.ioError errno msg)
  | .otherError desc => .error (.otherError desc)
  | .keyboardInterrupt => .error .keyboardInterrupt

/-- The inner `except pycurl.error` (lines 193-201): a callback abort with
`self._should_exit` unset becomes `RequeueTask`; any other pycurl error is
re-raised unchanged. -/
def innerHandler (should_exit : Bool) : Except PyExc Unit → Except PyExc Unit
  | .error (.curlError errno) =>
      if errno = E_ABORTED_BY_CALLBACK ∧ should_exit = false then .error .requeueTask
      else .error (.curlError errno)
  | r => r

/-- The outer `except` chain (lines 202-211): `pycurl.error` and `IOError`
become `ConnectionException`s, every other `Exception` is stored as-is, and
`KeyboardInterrupt` is swallowed without touching `self._error`. -/
def outerHandler : Except PyExc Unit → Option CapturedError × Bool
  | .ok () => (none, false)
  | .error (.curlError errno) => (some (.connection errno), true)
  | .error (.ioError errno msg) => (some (.ioConn errno msg), true)
  | .error (.workerHttp status name) => (some (.workerHttp status name), true)
  | .error .requeueTask => (some .requeue, true)
  | .error (.otherError desc) => (some (.other desc), true)
  | .error .keyboardInterrupt => (none, false)

/-- `Downloader.run` for an S3/HDFS/file task whose URL was built: when
`fifo.open()` (or the setup before `start_step`) raises, no step event
fires and the exception is captured by the outer chain; otherwise the step
is bracketed around `perform` and the handlers above classify the result. -/
def run (key_name : String) (should_exit open_ok : Bool) (res : PerformResult) :
    RunResult :=
  if open_ok then
    let classified := outerHandler (innerHandler should_exit (performBody key_name res))
    { events := [.startStep, .stopStep], error := classified.1, tb := classified.2 }
  else
    { events := [], error := some (.other "fifo.open() failed"), tb := true }

/-! ## Helper lemmas -/

open DownloadMetrics

/-- `ping` only touches `last_change` and its own throttle stamp. -/
lemma ping_snapshots (now : ℤ) (s : DownloadMetrics) :
    (ping now s).snapshots = s.snapshots := by
  unfold ping; split <;> rfl

/-- `ping` only touches `last_change` and its own throttle stamp. -/
lemma ping_current_size (now : ℤ) (s : DownloadMetrics) :
    (ping now s).current_size = s.current_size := by
  unfold ping; split <;> rfl

/-- `ping` only touches `last_change` and its own throttle stamp. -/
lemma ping_last_snapshot (now : ℤ) (s : DownloadMetrics) :
    (ping now s).last_snapshot = s.last_snapshot := by
  unfold ping; split <;> rfl

/-- The delta window produced by one fired snapshot: append the new delta,
then drop the overflow from the front (a no-op while the window is short,
the oldest entries once it is full). -/
lemma snapshotBody_snapshots (t : ℤ) (s : DownloadMetrics) :
    (snapshotBody t s).snapshots =
      (s.snapshots ++ [s.current_size - s.last_snapshot]).drop
        (s.snapshots.length + 1 - avg_len) := by
  unfold snapshotBody
  by_cases hping : (10 : ℤ) < s.current_size - s.last_snapshot <;>
    by_cases hlen : avg_len < s.snapshots.length + 1 <;>
      simp only [hping, hlen, if_true, if_false, ping_snapshots,
        List.length_append, List.length_cons, List.length_nil] <;>
      rw [Nat.sub_eq_zero_of_le (by omega), List.drop_zero]

/-- One `accumulate_bytes` call either leaves the delta window alone (the
snapshot throttle swallowed the call) or replaces it by the appended window
with the overflow dropped from the front. -/
lemma accumulate_snapshots_cases (t b : ℤ) (s : DownloadMetrics) :
    (accumulate_bytes t b s).snapshots = s.snapshots ∨
    (accumulate_bytes t b s).snapshots =
      (s.snapshots ++ [b - s.last_snapshot]).drop (s.snapshots.length + 1 - avg_len) := by
  unfold accumulate_bytes snapshot
  by_cases hth : throttleReady 1 { s with current_size := b }.snapshotLast t
  · right
    simp only [hth, if_true]
    exact snapshotBody_snapshots t { s with current_size := b }
  · left
    simp [hth]

/-- The delta window never grows past 30 entries in one step. -/
lemma accumulate_length_le (t b : ℤ) (s : DownloadMetrics)
    (h : s.snapshots.length ≤ 30) :
    (accumulate_bytes t b s).snapshots.length ≤ 30 := by
  rcases accumulate_snapshots_cases t b s with hc | hc
  · rw [hc]; exact h
  · rw [hc]
    simp only [List.length_drop, List.length_append, List.length_cons,
      List.length_nil, avg_len]
    omega

/-- The delta-window bound is preserved along any trace of
`accumulate_bytes` calls. -/
lemma applyEvents_length_le (evts : List (ℤ × ℤ)) (s : DownloadMetrics)
    (h : s.snapshots.length ≤ 30) :
    (applyEvents s evts).snapshots.length ≤ 30 := by
  induction evts generalizing s with
  | nil => exact h
  | cons e rest ih =>
      exact ih _ (accumulate_length_le e.1 e.2 s h)

/-- An `accumulate_bytes` call whose delta is at most 10 bytes never moves
`last_change`: `ping` is only reached under `diff > 10`. -/
lemma accumulate_lastChange_of_small (t b : ℤ) (s : DownloadMetrics)
    (h : b - s.last_snapshot ≤ 10) :
    (accumulate_bytes t b s).last_change = s.last_change := by
  unfold accumulate_bytes snapshot snapshotBody
  have hping : ¬ (10 : ℤ) < b - s.last_snapshot := not_lt.mpr h
  by_cases hth : throttleReady 1 s.snapshotLast t <;>
    simp [hth, hping]

/-- Traces register deltas step by step, so a trace with no meaningful
delta leaves `last_change` where it started. -/
lemma applyEvents_lastChange (evts : List (ℤ × ℤ)) (s : DownloadMetrics)
    (h : noBigDelta s evts) :
    (applyEvents s evts).last_change = s.last_change := by
  induction evts generalizing s with
  | nil => rfl
  | cons e rest ih =>
      obtain ⟨h1, h2⟩ := h
      rw [applyEvents, ih _ h2, accumulate_lastChange_of_small e.1 e.2 s h1]

/-- Applying a concatenated trace is applying the pieces in order. -/
lemma applyEvents_append (s : DownloadMetrics) (xs ys : List (ℤ × ℤ)) :
    applyEvents s (xs ++ ys) = applyEvents (applyEvents s xs) ys := by
  induction xs generalizing s with
  | nil => rfl
  | cons e rest ih => rw [List.cons_append, applyEvents, applyEvents, ih]

end Downloader

namespace Downloader

open DownloadMetrics

/-- **C5.** For every sequence of `accumulate_bytes` calls on one
`DownloadMetrics` instance, the delta window never holds more than 30
entries after any call completes, and a call either leaves the window
unchanged (throttled) or appends the new delta and evicts exactly the
oldest entries (a drop from the front of the appended window). -/
theorem snapshots_window_bounded :
    (∀ (total t0 : ℤ) (evts : List (ℤ × ℤ)),
        (applyEvents (init total t0) evts).snapshots.length ≤ 30) ∧
    (∀ (s : DownloadMetrics) (t b : ℤ),
        (accumulate_bytes t b s).snapshots = s.snapshots ∨
        (accumulate_bytes t b s).snapshots =
          (s.snapshots ++ [b - s.last_snapshot]).drop
            (s.snapshots.length + 1 - avg_len)) := by
  constructor
  · intro total t0 evts
    exact applyEvents_length_le evts (init total t0) (by simp [init])
  · exact fun s t b => accumulate_snapshots_cases t b s

/-- **C4.** Every chunk handed to `_write_to_fifo`'s callback is, when the
call returns, fully delivered to the FIFO in order across the partial
writes, and each partial write advances the remaining-bytes cursor by
exactly the count `os.write` accepted. -/
theorem writeToFifo_delivers_chunk :
    (∀ (ws chunk : List Nat) (parts : List (List Nat)),
        writeToFifo ws chunk = some parts → parts.flatten = chunk) ∧
    (∀ (w : Nat) (rem : List Nat), w ≤ rem.length →
        (fifoWriteStep w rem).1.length = w ∧
        (fifoWriteStep w rem).2.length = rem.length - w) := by
  constructor
  · intro ws
    induction ws with
    | nil =>
        intro chunk parts h
        cases chunk with
        | nil =>
            simp only [writeToFifo, Option.some.injEq] at h
            subst h; rfl
        | cons d ds => simp [writeToFifo] at h
    | cons w ws ih =>
        intro chunk parts h
        cases chunk with
        | nil =>
            simp only [writeToFifo, Option.some.injEq] at h
            subst h; rfl
        | cons d ds =>
            simp only [writeToFifo, fifoWriteStep, Option.map_eq_some'] at h
            obtain ⟨rest, hrest, hparts⟩ := h
            subst hparts
            simp only [List.flatten_cons]
            rw [ih _ _ hrest]
            exact List.take_append_drop w (d :: ds)
  · intro w rem h
    constructor
    · simp [fifoWriteStep, List.length_take]; omega
    · simp [fifoWriteStep, List.length_drop]

/-- Witness for C4 at a concrete chunk and oracle: the oracle `[2, 3]`
splits the 5-byte chunk into two partial writes that join back to it, and
a 2-byte write against a 3-byte remainder advances the cursor by 2. -/
theorem writeToFifo_delivers_chunk_witness :
    ([[1, 2], [3, 4, 5]] : List (List Nat)).flatten = [1, 2, 3, 4, 5] ∧
    ((fifoWriteStep 2 [9, 9, 9]).1.length = 2 ∧
     (fifoWriteStep 2 [9, 9, 9]).2.length = 1) :=
  ⟨writeToFifo_delivers_chunk.1 [2, 3] [1, 2, 3, 4, 5] [[1, 2], [3, 4, 5]] rfl,
   writeToFifo_delivers_chunk.2 2 [9, 9, 9] (by decide)⟩

/-- **C2.** The progress callback signals abort exactly when the
cancellation flag is set or the wall clock has passed
`last_change + DOWNLOAD_TIMEOUT`; and if no `accumulate_bytes` call in a
trace (including the one the progress check itself performs) registers a
delta above 10 bytes, then once the stall timeout has elapsed since the
starting `last_change` the next progress check signals abort. -/
theorem progress_abort_iff_stall :
    (∀ (flag : Bool) (now dl : ℤ) (s : DownloadMetrics),
        (progress flag now dl s).2 = true ↔
          (flag = true ∨
           (accumulate_bytes now dl s).last_change + DOWNLOAD_TIMEOUT < now)) ∧
    (∀ (s0 : DownloadMetrics) (evts : List (ℤ × ℤ)) (now dl : ℤ) (flag : Bool),
        noBigDelta s0 (evts ++ [(now, dl)]) →
        s0.last_change + DOWNLOAD_TIMEOUT < now →
        (progress flag now dl (applyEvents s0 evts)).2 = true) := by
  constructor
  · intro flag now dl s
    simp [progress]
  · intro s0 evts now dl flag hsmall htime
    have hlc : (applyEvents s0 (evts ++ [(now, dl)])).last_change = s0.last_change :=
      applyEvents_lastChange _ _ hsmall
    rw [applyEvents_append] at hlc
    simp only [applyEvents] at hlc
    simp only [progress, Bool.or_eq_true, decide_eq_true_eq]
    right
    rw [hlc]
    exact htime

/-- Witness for C2: from a fresh metrics object (created at time 0) a
single progress check at time 31 that has seen no bytes aborts, and the
abort-iff equivalence holds there as well. -/
theorem progress_abort_iff_stall_witness :
    ((progress false 31 0 (init 100 0)).2 = true ↔
      (false = true ∨
       (accumulate_bytes 31 0 (init 100 0)).last_change + DOWNLOAD_TIMEOUT < 31)) ∧
    (progress false 31 0 (applyEvents (init 100 0) [])).2 = true :=
  ⟨progress_abort_iff_stall.1 false 31 0 (init 100 0),
   progress_abort_iff_stall.2 (init 100 0) [] 31 0 false
     ⟨by decide, trivial⟩ (by decide)⟩

/-- **C3.** `get_stats` reports `rate = 0` when the transfer is complete
(`current_size = total_size`) or the delta window is empty, and the exact
arithmetic mean of the delta window otherwise; `time_left` is `-1` when the
rate is zero and `(total_size - current_size) / rate` otherwise; and
`bytes_downloaded` is `current_size`. -/
theorem get_stats_spec (s : DownloadMetrics) :
    (s.get_stats.download_rate =
        if s.current_size = s.total_size ∨ s.snapshots = [] then 0
        else arithMean s.snapshots) ∧
    (s.get_stats.time_left =
        if s.get_stats.download_rate = 0 then -1
        else ((s.total_size - s.current_size : ℤ) : ℚ) / s.get_stats.download_rate) ∧
    s.get_stats.bytes_downloaded = s.current_size := by
  refine ⟨rfl, ?_, rfl⟩
  rfl

/-- **C10.** `get_stats` is total and never divides by zero: routing both
of its divisions through a checked division that fails on a zero
denominator succeeds on every metrics state and returns exactly
`get_stats`. -/
theorem get_stats_no_div_by_zero (s : DownloadMetrics) :
    s.get_statsChecked = some s.get_stats := by
  unfold DownloadMetrics.get_statsChecked DownloadMetrics.get_stats DownloadMetrics.checkedDiv
  by_cases h : s.current_size = s.total_size ∨ s.snapshots = []
  · simp [h]
  · have hne : s.snapshots ≠ [] := fun hnil => h (Or.inr hnil)
    have hlen : (s.snapshots.length : ℚ) ≠ 0 := by
      have := List.length_pos.mpr hne
      positivity
    simp only [h, if_false, hlen, ne_eq, not_false_eq_true, div_eq_zero_iff,
      Nat.cast_eq_zero, or_false, Option.bind_eq_bind, Option.some_bind]
    split <;> simp

/-- **C7.** A transfer whose byte stream completes with a final HTTP status
in `400..499` ends as a captured `WorkerException` carrying the status code
and the resource name — the worker's error field is set, not the
clean-completion `none`. -/
theorem run_http_4xx_hard_failure (name : String) (flag : Bool) (status : Int)
    (h400 : 400 ≤ status) (h500 : status < 500) :
    (Downloader.run name flag true (.ok status)).error =
      some (.workerHttp status name) ∧
    (Downloader.run name flag true (.ok status)).error ≠ none := by
  have hcond : (400 ≤ status ∧ status < 500) := ⟨h400, h500⟩
  constructor
  · simp [Downloader.run, performBody, innerHandler, outerHandler, hcond]
  · simp [Downloader.run, performBody, innerHandler, outerHandler, hcond]

/-- Witness for C7: a 404 on `myfile` is captured as a client error. -/
theorem run_http_4xx_hard_failure_witness :
    (Downloader.run "myfile" false true (.ok 404)).error =
      some (.workerHttp 404 "myfile") ∧
    (Downloader.run "myfile" false true (.ok 404)).error ≠ none :=
  run_http_4xx_hard_failure "myfile" false 404 (by decide) (by decide)

/-- **C8.** Whenever the begin-step notification fires, the matching
end-step notification fires exactly once before the outcome is produced,
on every exit path: the event trace is exactly
`[startStep, stopStep]` for every perform result (success, transport
error, classified failure, keyboard interrupt). -/
theorem run_step_bracketed (name : String) (flag open_ok : Bool)
    (res : PerformResult)
    (h : Event.startStep ∈ (Downloader.run name flag open_ok res).events) :
    (Downloader.run name flag open_ok res).events = [.startStep, .stopStep] ∧
    (Downloader.run name flag open_ok res).events.count .stopStep = 1 := by
  cases open_ok with
  | false => simp [Downloader.run] at h
  | true => exact ⟨rfl, rfl⟩

/-- Witness for C8: a successful transfer fires start and stop once each. -/
theorem run_step_bracketed_witness :
    (Downloader.run "f" false true (.ok 200)).events = [.startStep, .stopStep] ∧
    (Downloader.run "f" false true (.ok 200)).events.count .stopStep = 1 :=
  run_step_bracketed "f" false true (.ok 200) (by decide)

/-- **C9.** Every failure raised inside the transfer — transport error,
low-level I/O error, requeue signal, HTTP client error or any other
exception other than a keyboard interrupt — is caught by the handler chain
and captured in the worker's error field together with the diagnostic
traceback, and `run`'s error field is exactly what that handler chain
produces (nothing propagates past it). -/
theorem run_captures_failures :
    (∀ (flag : Bool) (exc : PyExc), exc ≠ .keyboardInterrupt →
        (outerHandler (innerHandler flag (.error exc))).1.isSome = true ∧
        (outerHandler (innerHandler flag (.error exc))).2 = true) ∧
    (∀ (name : String) (flag : Bool) (res : PerformResult),
        (Downloader.run name flag true res).error =
          (outerHandler (innerHandler flag (performBody name res))).1) := by
  constructor
  · intro flag exc hki
    cases exc with
    | curlError errno =>
        unfold innerHandler outerHandler
        by_cases hre : errno = E_ABORTED_BY_CALLBACK ∧ flag = false <;> simp [hre]
    | ioError errno msg => exact ⟨rfl, rfl⟩
    | workerHttp status nm => exact ⟨rfl, rfl⟩
    | requeueTask => exact ⟨rfl, rfl⟩
    | otherError desc => exact ⟨rfl, rfl⟩
    | keyboardInterrupt => exact absurd rfl hki
  · intro name flag res
    rfl

/-- Witness for C9: a libcurl connect failure (errno 7) is captured with a
traceback rather than propagated. -/
theorem run_captures_failures_witness :
    ((outerHandler (innerHandler false (.error (.curlError 7)))).1.isSome = true ∧
     (outerHandler (innerHandler false (.error (.curlError 7)))).2 = true) ∧
    (Downloader.run "f" false true (.curlError 7)).error =
      (outerHandler (innerHandler false (performBody "f" (.curlError 7)))).1 :=
  ⟨run_captures_failures.1 false (.curlError 7) (by decide),
   run_captures_failures.2 "f" false (.curlError 7)⟩

/-- **C1 counterexample.** An abort reported while the cancellation flag IS
set is not a silent cancellation: the outer `except pycurl.error` clause
captures `ConnectionException` for libcurl error 42, so an error IS
surfaced in the worker's error field. -/
theorem abort_with_flag_set_not_silent_cex :
    (Downloader.run "f" true true (.curlError 42)).error =
      some (.connection 42) ∧
    (Downloader.run "f" true true (.curlError 42)).error ≠ none := by
  exact ⟨rfl, by decide⟩

/-- **C1 (amended).** For a transfer ending in a callback-abort error
(`pycurl.E_ABORTED_BY_CALLBACK = 42`): if the cancellation flag is unset
the captured outcome is the requeue request, and if the flag is set the
captured outcome is a `ConnectionException` for libcurl error 42 (an error
is surfaced, not a silent shutdown); the two outcomes are mutually
exclusive. -/
theorem abort_outcome_by_cancellation_flag (name : String) (flag : Bool) :
    ((Downloader.run name flag true (.curlError E_ABORTED_BY_CALLBACK)).error =
        some .requeue ↔ flag = false) ∧
    ((Downloader.run name flag true (.curlError E_ABORTED_BY_CALLBACK)).error =
        some (.connection E_ABORTED_BY_CALLBACK) ↔ flag = true) := by
  cases flag <;>
    simp [Downloader.run, performBody, innerHandler, outerHandler,
      E_ABORTED_BY_CALLBACK]

/-- Witness for C1 (amended) at both flag values. -/
theorem abort_outcome_by_cancellation_flag_witness :
    (Downloader.run "k" false true (.curlError E_ABORTED_BY_CALLBACK)).error =
      some .requeue ∧
    (Downloader.run "k" true true (.curlError E_ABORTED_BY_CALLBACK)).error =
      some (.connection E_ABORTED_BY_CALLBACK) :=
  ⟨(abort_outcome_by_cancellation_flag "k" false).1.mpr rfl,
   (abort_outcome_by_cancellation_flag "k" true).2.mpr rfl⟩

/-- **C6 counterexample.** An absent S3 key does not produce the
status/reason/key-name error: `bucket.get_key` returns `None` for an
absent key, so `load` raises the generic "Failed to find key associated
with task ID" `WorkerException`, which carries only the task id. -/
theorem s3_absent_key_cex :
    s3Load "task-42" "mykey" .absent =
      .workerError (.failedToFindKey "task-42") ∧
    carriesBackendInfo (s3Load "task-42" "mykey" .absent) = false :=
  ⟨rfl, rfl⟩

/-- **C6 (amended).** When the named key is absent from the bucket the S3
resolution fails — so the transfer never starts — with the
`WorkerException` naming the task id (not the backend status, reason and
key name); the status/reason/key-name error is raised exactly when the
backend answers the key lookup with an error response
(`S3ResponseError`). -/
theorem s3Load_absent_and_backend_error (task_id key_name reason : String)
    (status : Int) :
    (s3Load task_id key_name .absent =
        .workerError (.failedToFindKey task_id) ∧
     resolveOk (s3Load task_id key_name .absent) = false) ∧
    (s3Load task_id key_name (.httpError status reason) =
        .workerError (.receivedStatusAccessing status reason key_name) ∧
     resolveOk (s3Load task_id key_name (.httpError status reason)) = false) :=
  ⟨⟨rfl, rfl⟩, ⟨rfl, rfl⟩⟩

end Downloader
